import Mathlib

/-
  Verification of the BME680 driver core of the dev-boards repository.

  The repository contains two near-duplicate C++ drivers:
    * `BME680_Bosch`  (src/_libs/esp32-s3/BME680_Bosch/BME680_Bosch.cpp)
    * `BME680_Custom` (src/Arduino/libraries/BME680_Custom/BME680_Custom.cpp)

  This file shallowly embeds their compensation, baseline/IAQ, heater-encoding
  and acquisition logic and proves / refutes the specified properties.

  Conventions of the embedding:
    * C `int32_t`/`int64_t` values are Lean `Int`s; every C operation that is
      performed in 32-bit (resp. 64-bit) arithmetic is wrapped with `i32`
      (resp. `i64`), the two's-complement reduction.  Unsigned arithmetic uses
      `u32`/`u64`.
    * C `>>` on a signed value is the arithmetic shift `asr` (floor division
      by a power of two); `>>` on an unsigned value is also floor division,
      and both agree on non-negative values.
    * C `/` on signed integers is truncated division, Lean's `Int.tdiv`.
    * C `float`/`double` quantities that only store already-computed values
      (baselines, IAQ scores) are modelled as exact rationals `ℚ`.
-/

namespace BME680

/-! ## Machine-integer helpers -/

/-- Two's-complement wraparound of an integer to signed 32-bit range. -/
def i32 (x : Int) : Int := (x + 2147483648) % 4294967296 - 2147483648

/-- Two's-complement wraparound of an integer to signed 64-bit range. -/
def i64 (x : Int) : Int :=
  (x + 9223372036854775808) % 18446744073709551616 - 9223372036854775808

/-- Reduction of an integer to unsigned 32-bit range (C conversion to `uint32_t`). -/
def u32 (x : Int) : Int := x % 4294967296

/-- Reduction of an integer to unsigned 64-bit range (C conversion to `uint64_t`). -/
def u64 (x : Int) : Int := x % 18446744073709551616

/-- C arithmetic shift right by `k`: floor division by `2 ^ k`. -/
def asr (x : Int) (k : Nat) : Int := x / 2 ^ k

/-- The value fits in a signed 32-bit integer. -/
def fits32 (x : Int) : Prop := -2147483648 ≤ x ∧ x < 2147483648

/-- The value fits in a signed 64-bit integer. -/
def fits64 (x : Int) : Prop := -9223372036854775808 ≤ x ∧ x < 9223372036854775808

instance (x : Int) : Decidable (fits32 x) := by unfold fits32; infer_instance

instance (x : Int) : Decidable (fits64 x) := by unfold fits64; infer_instance

/-! ## Calibration data

Shared field layout of `CalibrationData` (`BME680_Bosch.h` lines 206-241 and
`BME680_Custom.h` lines 108-136); the C field types are recorded by the
well-formedness predicate `calib_wf` below. -/

structure CalibrationData where
  par_t1 : Int
  par_t2 : Int
  par_t3 : Int
  par_p1 : Int
  par_p2 : Int
  par_p3 : Int
  par_p4 : Int
  par_p5 : Int
  par_p6 : Int
  par_p7 : Int
  par_p8 : Int
  par_p9 : Int
  par_p10 : Int
  par_h1 : Int
  par_h2 : Int
  par_h3 : Int
  par_h4 : Int
  par_h5 : Int
  par_h6 : Int
  par_h7 : Int
  par_gh1 : Int
  par_gh2 : Int
  par_gh3 : Int
  res_heat_range : Int
  res_heat_val : Int
  range_sw_err : Int
deriving DecidableEq

/-- Ranges imposed by the C declared types of the calibration fields. -/
def calib_wf (c : CalibrationData) : Prop :=
  (0 ≤ c.par_t1 ∧ c.par_t1 < 65536) ∧
  (-32768 ≤ c.par_t2 ∧ c.par_t2 < 32768) ∧
  (-128 ≤ c.par_t3 ∧ c.par_t3 < 128) ∧
  (0 ≤ c.par_p1 ∧ c.par_p1 < 65536) ∧
  (-32768 ≤ c.par_p2 ∧ c.par_p2 < 32768) ∧
  (-128 ≤ c.par_p3 ∧ c.par_p3 < 128) ∧
  (-32768 ≤ c.par_p4 ∧ c.par_p4 < 32768) ∧
  (-32768 ≤ c.par_p5 ∧ c.par_p5 < 32768) ∧
  (-128 ≤ c.par_p6 ∧ c.par_p6 < 128) ∧
  (-128 ≤ c.par_p7 ∧ c.par_p7 < 128) ∧
  (-32768 ≤ c.par_p8 ∧ c.par_p8 < 32768) ∧
  (-32768 ≤ c.par_p9 ∧ c.par_p9 < 32768) ∧
  (0 ≤ c.par_p10 ∧ c.par_p10 < 256) ∧
  (0 ≤ c.range_sw_err ∧ c.range_sw_err < 16)

instance (c : CalibrationData) : Decidable (calib_wf c) := by
  unfold calib_wf; infer_instance

/-! ## Gas-resistance lookup tables (`BME680_Custom.cpp` lines 9-21,
`BME680_Bosch.cpp` lines 9-21; identical in both drivers). -/

def lookupTable1 : List Int :=
  [2147483647, 2147483647, 2147483647, 2147483647,
   2147483647, 2126008810, 2147483647, 2130303777, 2147483647,
   2147483647, 2143188679, 2136746228, 2147483647, 2126008810,
   2147483647, 2147483647]

def lookupTable2 : List Int :=
  [4096000000, 2048000000, 1024000000, 512000000,
   255744255, 127110228, 64000000, 32258064,
   16016016, 8000000, 4000000, 2000000,
   1000000, 500000, 250000, 125000]

/-! ## Low-variant gas resistance
(`BME680_Custom::_calc_gas_resistance`, low branch, lines 251-260; the same
integer chain appears in `BME680_Bosch::_calc_gas_resistance_low`,
lines 397-408, with the final division performed in `float`). -/

/-- `var1 = ((1340 + (5 * range_sw_err)) * lookupTable1[gas_range]) >> 16`
(32-bit signed arithmetic as in the Custom driver). -/
def gas_low_var1 (range_sw_err : Int) (gas_range : Nat) : Int :=
  asr (i32 ((1340 + 5 * range_sw_err) * lookupTable1.getD gas_range 0)) 16

/-- `var2 = (((gas_res_adc << 15) - 16777216) + var1)`. -/
def gas_low_var2 (gas_res_adc v1 : Int) : Int :=
  i32 (gas_res_adc * 32768 - 16777216 + v1)

/-- `var3 = ((lookupTable2[gas_range] * var1) >> 9)` (computed in `uint32_t`
arithmetic, logical shift). -/
def gas_low_var3 (gas_range : Nat) (v1 : Int) : Int :=
  u32 (lookupTable2.getD gas_range 0 * v1) / 512

/-- The `int64_t calc_gas_res` value of the Custom driver's low-variant branch
after the negative-to-unsigned fixup (`if (calc_gas_res < 0) calc_gas_res =
((int64_t)1 << 32) + calc_gas_res`). -/
def calc_gas_resistance_low (range_sw_err gas_res_adc : Int) (gas_range : Nat) : Int :=
  let var1 := gas_low_var1 range_sw_err gas_range
  let var2 := gas_low_var2 gas_res_adc var1
  let var3 := gas_low_var3 gas_range var1
  let q := Int.tdiv (i32 (var3 + asr var2 1)) var2
  if q < 0 then 4294967296 + q else q

/-! ## Heater duration encoding
(`BME680_Custom::_calc_heater_duration`, lines 494-508;
`BME680_Bosch::_calc_heater_duration`, lines 426-440; identical). -/

/-- The `while (dur > 0x3f) { dur /= 4; factor++; }` loop, with an explicit
fuel argument making the recursion structural; `dur` strictly decreases at
every iteration, so a fuel of `dur` always suffices (`durLoopF_adequate`). -/
def durLoopF : Nat → Nat → Nat → Nat × Nat
  | 0, dur, factor => (dur, factor)
  | fuel + 1, dur, factor =>
    if 63 < dur then durLoopF fuel (dur / 4) (factor + 1) else (dur, factor)

/-- The loop entered at `(dur, factor)`. -/
def durLoop (dur factor : Nat) : Nat × Nat := durLoopF dur dur factor

/-- `_calc_heater_duration` (`return dur + (factor * 64)` below `0xFC0`,
`0xFF` otherwise). -/
def calc_heater_duration (duration : Nat) : Nat :=
  if duration < 0xfc0 then
    (durLoop duration 0).1 + (durLoop duration 0).2 * 64
  else 0xff

/-- Decoding of a packed duration register value back to milliseconds:
mantissa (low 6 bits) times `4 ^ factor` (high 2 bits), as described by the
spec's mantissa/factor encoding. -/
def decode_duration (b : Nat) : Nat := b % 64 * 4 ^ (b / 64)

/-! ## Temperature compensation
(`BME680_Custom::_calc_temperature`, lines 178-187;
`BME680_Bosch::_calc_temperature`, lines 313-324; identical formulas). -/

/-- `var1 = (temp_adc >> 3) - ((int32_t)par_t1 << 1)`; the ADC code is
unsigned, so its shift is a plain division. -/
def temp_var1 (c : CalibrationData) (adc_temp : Int) : Int :=
  i32 (adc_temp / 8 - i32 (c.par_t1 * 2))

/-- `var2 = (var1 * (int32_t)par_t2) >> 11`. -/
def temp_var2 (c : CalibrationData) (adc_temp : Int) : Int :=
  asr (i32 (temp_var1 c adc_temp * c.par_t2)) 11

/-- `var3 = ((((var1 >> 1) * (var1 >> 1)) >> 12) * ((int32_t)par_t3 << 4)) >> 14`. -/
def temp_var3 (c : CalibrationData) (adc_temp : Int) : Int :=
  asr (i32 (asr (i32 (asr (temp_var1 c adc_temp) 1 * asr (temp_var1 c adc_temp) 1)) 12
        * i32 (c.par_t3 * 16))) 14

/-- `t_fine = (var2 + var3) + offset_temp_in_t_fine`. -/
def calc_t_fine (c : CalibrationData) (offset adc_temp : Int) : Int :=
  i32 (i32 (temp_var2 c adc_temp + temp_var3 c adc_temp) + offset)

/-- `calc_temp = ((t_fine * 5) + 128) >> 8` (centi-degrees Celsius). -/
def calc_temperature (c : CalibrationData) (offset adc_temp : Int) : Int :=
  asr (i32 (i32 (calc_t_fine c offset adc_temp * 5) + 128)) 8

/-! ## Humidity compensation
(`BME680_Custom::_calc_humidity`, lines 218-237;
`BME680_Bosch::_calc_humidity`, lines 355-374; identical integer chain). -/

/-- The clamped per-mille humidity value returned by `_calc_humidity`. -/
def calc_humidity (c : CalibrationData) (t_fine hum_adc : Int) : Int :=
  let temp_scaled := asr (i32 (i32 (t_fine * 5) + 128)) 8
  let var1 := i32 (i32 (hum_adc - i32 (c.par_h1 * 16)) -
    asr (Int.tdiv (i32 (temp_scaled * c.par_h3)) 100) 1)
  let var2 := asr (i32 (c.par_h2 *
    i32 (i32 (Int.tdiv (i32 (temp_scaled * c.par_h4)) 100 +
      Int.tdiv (asr (i32 (temp_scaled *
        Int.tdiv (i32 (temp_scaled * c.par_h5)) 100)) 6) 100) + 16384))) 10
  let var3 := i32 (var1 * var2)
  let var4 := asr (i32 (i32 (c.par_h6 * 128) +
    Int.tdiv (i32 (temp_scaled * c.par_h7)) 100)) 4
  let var5 := asr (i32 (asr var3 14 * asr var3 14)) 10
  let var6 := asr (i32 (var4 * var5)) 1
  let calc_hum := asr (i32 (asr (i32 (var3 + var6)) 10 * 1000)) 12
  let c1 := if calc_hum < 0 then 0 else calc_hum
  if 100000 < c1 then 100000 else c1

/-! ## Sensor data and IAQ scoring
(`BME680_Custom` only: `calculate_iaq_score` lines 328-361,
`check_safe_to_open` lines 363-374). -/

/-- `SensorData` (`BME680_Custom.h` lines 139-146). -/
structure SensorData where
  temperature : ℚ
  pressure : ℚ
  humidity : ℚ
  gas_resistance : ℚ
  heat_stable : Bool
  gas_valid : Bool
deriving DecidableEq

/-- The part of the Custom driver's state that IAQ scoring reads. -/
structure IAQState where
  gas_baseline : ℚ
  hum_baseline : ℚ
  baseline_established : Bool
  data : SensorData
deriving DecidableEq

/-- `BME680_Custom::calculate_iaq_score(float hum_weighting)`; the C sentinel
`-1.0` is the rational `-1`. -/
def calculate_iaq_score (st : IAQState) (hum_weighting : ℚ) : ℚ :=
  if st.baseline_established = false then -1
  else if st.data.gas_resistance = 0 then -1
  else
    let gas_offset := st.gas_baseline - st.data.gas_resistance
    let hum_offset := st.data.humidity - st.hum_baseline
    let hum_score :=
      if 0 < hum_offset then
        (100 - st.hum_baseline - hum_offset) / (100 - st.hum_baseline) *
          (hum_weighting * 100)
      else
        (st.hum_baseline + hum_offset) / st.hum_baseline * (hum_weighting * 100)
    let gas_score :=
      if 0 < gas_offset then
        st.data.gas_resistance / st.gas_baseline * (100 - hum_weighting * 100)
      else
        100 - hum_weighting * 100
    hum_score + gas_score

/-- `BME680_Custom::check_safe_to_open(float threshold)`; it calls
`calculate_iaq_score()` with the default weighting `0.25`. -/
def check_safe_to_open (st : IAQState) (threshold : ℚ) : Bool :=
  if st.baseline_established = false then false
  else if calculate_iaq_score st (1/4) < 0 then false
  else decide (threshold ≤ calculate_iaq_score st (1/4))

/-! ## Baseline establishment
(`BME680_Bosch::set_baselines`, lines 506-554;
`BME680_Custom::set_baselines`, lines 264-326).

The input is the ordered sequence of accepted burn-in readings: the
`(gas_resistance, humidity)` pairs of exactly those acquisitions that
succeeded with `heat_stable == true` during the burn-in window. -/

/-- The Bosch driver's baseline state (`baseline_status` is initialised to
`-1` in the constructor and set to `1` by `set_baselines`). -/
structure BoschBaseline where
  baseline_status : Int
  baseline_gas : ℚ
  baseline_hum : ℚ
deriving DecidableEq

/-- `for (i = a; i < b; i++) sum += xs[i];` over a C array modelled as a list
(out-of-bounds reads yield the default `0`). -/
def sumFromTo (xs : List ℚ) (a b : Nat) : ℚ :=
  ((List.range (b - a)).map fun i => xs.getD (a + i) 0).sum

/-- `BME680_Bosch::set_baselines`: the burn-in loop stores at most the first
300 accepted readings (`if (count < 300)`), then averages all of them when
`count < 50` and the window `[count - 50, count)` otherwise, and
unconditionally sets `baseline_status = 1`. -/
def bosch_set_baselines (samples : List (ℚ × ℚ)) : BoschBaseline :=
  let gas_burn_data := (samples.take 300).map Prod.fst
  let hum_burn_data := (samples.take 300).map Prod.snd
  let count := gas_burn_data.length
  if count < 50 then
    { baseline_status := 1
      baseline_gas := sumFromTo gas_burn_data 0 count / count
      baseline_hum := sumFromTo hum_burn_data 0 count / count }
  else
    { baseline_status := 1
      baseline_gas := sumFromTo gas_burn_data (count - 50) count / 50
      baseline_hum := sumFromTo hum_burn_data (count - 50) count / 50 }

/-- The Custom driver's baseline state. -/
structure CustomBaseline where
  gas_baseline : ℚ
  hum_baseline : ℚ
  baseline_established : Bool
deriving DecidableEq

/-- `BME680_Custom::set_baselines`: running sums over all accepted readings;
with zero accepted readings the state is untouched and `false` is returned,
otherwise the baselines become the mean of all accepted readings and the
function returns `true`. -/
def custom_set_baselines (st : CustomBaseline) (samples : List (ℚ × ℚ)) :
    CustomBaseline × Bool :=
  let count := samples.length
  if 0 < count then
    ({ gas_baseline := (samples.map Prod.fst).sum / count
       hum_baseline := (samples.map Prod.snd).sum / count
       baseline_established := true }, true)
  else
    (st, false)

/-! ## Pressure compensation
(`BME680_Bosch::_calc_pressure`, lines 326-353, all intermediates `int64_t`;
`BME680_Custom::_calc_pressure`, lines 189-216, first- and second-half
intermediates stored in `int32_t`, accumulator in `int64_t`).

The second half of the chain is written identically in both drivers
(`int64_t` expressions); the shared sub-terms are factored out below and the
driver-specific wrapping applied where each driver stores a value. -/

/-- `calc_pres = 1048576 - pres_adc` (evaluated in `uint32_t`, then widened). -/
def pres_cp0 (pres_adc : Int) : Int := u32 (1048576 - pres_adc)

/-- `calc_pres = ((calc_pres - (var2 >> 12)) * 3125)` (`int64_t`). -/
def pres_cp1 (cp0 v2c : Int) : Int := i64 ((cp0 - asr v2c 12) * 3125)

/-- The division-order branch: `if (calc_pres >= (1 << 31)) calc_pres =
(calc_pres / var1) << 1; else calc_pres = (calc_pres << 1) / var1;`. -/
def pres_cp2 (cp1 w3 : Int) : Int :=
  if 2147483648 ≤ cp1 then i64 (Int.tdiv cp1 w3 * 2)
  else i64 (Int.tdiv (i64 (cp1 * 2)) w3)

/-- `(par_p9 * (((calc_pres >> 3) * (calc_pres >> 3)) >> 13)) >> 12`
(`int64_t` expression, identical in both drivers). -/
def pres_q1_inner (p9 cp2 : Int) : Int :=
  asr (i64 (p9 * asr (i64 (asr cp2 3 * asr cp2 3)) 13)) 12

/-- `((calc_pres >> 2) * par_p8) >> 13` (`int64_t` expression). -/
def pres_q2_inner (p8 cp2 : Int) : Int := asr (i64 (asr cp2 2 * p8)) 13

/-- `((calc_pres >> 8) * (calc_pres >> 8) * (calc_pres >> 8) * par_p10) >> 17`
(`int64_t` in both drivers). -/
def pres_q3 (p10 cp2 : Int) : Int :=
  asr (i64 (i64 (i64 (asr cp2 8 * asr cp2 8) * asr cp2 8) * p10)) 17

/-- Custom `int32_t var1 = ((int32_t)_cal.t_fine >> 1) - 64000`. -/
def customP_v1 (t_fine : Int) : Int := i32 (asr t_fine 1 - 64000)

/-- Custom `(var1 >> 2) * (var1 >> 2)` (the product before its 32-bit wrap). -/
def customP_sq (t_fine : Int) : Int :=
  asr (customP_v1 t_fine) 2 * asr (customP_v1 t_fine) 2

/-- Custom `var2 = ((((var1 >> 2) * (var1 >> 2)) >> 11) * par_p6) >> 2`. -/
def customP_v2a (c : CalibrationData) (t_fine : Int) : Int :=
  asr (i32 (asr (i32 (customP_sq t_fine)) 11 * c.par_p6)) 2

/-- Custom `var2 = var2 + ((var1 * par_p5) << 1)`. -/
def customP_v2b (c : CalibrationData) (t_fine : Int) : Int :=
  i32 (customP_v2a c t_fine + i32 (i32 (customP_v1 t_fine * c.par_p5) * 2))

/-- Custom `var2 = (var2 >> 2) + (par_p4 << 16)`. -/
def customP_v2c (c : CalibrationData) (t_fine : Int) : Int :=
  i32 (asr (customP_v2b c t_fine) 2 + i32 (c.par_p4 * 65536))

/-- Custom `var1 = (((((var1 >> 2) * (var1 >> 2)) >> 13) * (par_p3 << 5)) >> 3)
+ ((par_p2 * var1) >> 1)`. -/
def customP_w1 (c : CalibrationData) (t_fine : Int) : Int :=
  i32 (asr (i32 (asr (i32 (customP_sq t_fine)) 13 * i32 (c.par_p3 * 32))) 3 +
    asr (i32 (c.par_p2 * customP_v1 t_fine)) 1)

/-- Custom `var1 = var1 >> 18`. -/
def customP_w2 (c : CalibrationData) (t_fine : Int) : Int :=
  asr (customP_w1 c t_fine) 18

/-- Custom `var1 = ((32768 + var1) * par_p1) >> 15`. -/
def customP_w3 (c : CalibrationData) (t_fine : Int) : Int :=
  asr (i32 ((32768 + customP_w2 c t_fine) * c.par_p1)) 15

/-- The Custom driver's `int64_t calc_pres` after the division-order branch. -/
def customP_cp2 (c : CalibrationData) (t_fine pres_adc : Int) : Int :=
  pres_cp2 (pres_cp1 (pres_cp0 pres_adc) (customP_v2c c t_fine))
    (customP_w3 c t_fine)

/-- The Custom driver's final `int64_t calc_pres` (`var1` and `var2` of the
second half are stored in `int32_t`, hence the inner `i32` wraps). -/
def custom_pres_out (c : CalibrationData) (t_fine pres_adc : Int) : Int :=
  let cp2 := customP_cp2 c t_fine pres_adc
  let q1 := i32 (pres_q1_inner c.par_p9 cp2)
  let q2 := i32 (pres_q2_inner c.par_p8 cp2)
  let q3 := pres_q3 c.par_p10 cp2
  i64 (cp2 + asr (i64 (i64 (i32 (q1 + q2) + q3) + i32 (c.par_p7 * 128))) 4)

/-- `BME680_Custom::_calc_pressure` return value: `(uint32_t)calc_pres`, in Pa. -/
def calc_pressure_custom (c : CalibrationData) (t_fine pres_adc : Int) : Int :=
  u32 (custom_pres_out c t_fine pres_adc)

/-- Bosch `int64_t var1 = ((int64_t)t_fine >> 1) - 64000`. -/
def boschP_v1 (t_fine : Int) : Int := i64 (asr t_fine 1 - 64000)

/-- Bosch `(var1 >> 2) * (var1 >> 2)` (the product before its 64-bit wrap). -/
def boschP_sq (t_fine : Int) : Int :=
  asr (boschP_v1 t_fine) 2 * asr (boschP_v1 t_fine) 2

/-- Bosch `var2 = ((((var1 >> 2) * (var1 >> 2)) >> 11) * par_p6) >> 2`. -/
def boschP_v2a (c : CalibrationData) (t_fine : Int) : Int :=
  asr (i64 (asr (i64 (boschP_sq t_fine)) 11 * c.par_p6)) 2

/-- Bosch `var2 = var2 + ((var1 * par_p5) << 1)`. -/
def boschP_v2b (c : CalibrationData) (t_fine : Int) : Int :=
  i64 (boschP_v2a c t_fine + i64 (i64 (boschP_v1 t_fine * c.par_p5) * 2))

/-- Bosch `var2 = (var2 >> 2) + (par_p4 << 16)`. -/
def boschP_v2c (c : CalibrationData) (t_fine : Int) : Int :=
  i64 (asr (boschP_v2b c t_fine) 2 + i64 (c.par_p4 * 65536))

/-- Bosch `var1_2 = (((((var1 >> 2) * (var1 >> 2)) >> 13) * (par_p3 << 5)) >> 3)
+ ((var1 * par_p2) >> 1)`. -/
def boschP_w1 (c : CalibrationData) (t_fine : Int) : Int :=
  i64 (asr (i64 (asr (i64 (boschP_sq t_fine)) 13 * i64 (c.par_p3 * 32))) 3 +
    asr (i64 (boschP_v1 t_fine * c.par_p2)) 1)

/-- Bosch `var1_2 = var1_2 >> 18`. -/
def boschP_w2 (c : CalibrationData) (t_fine : Int) : Int :=
  asr (boschP_w1 c t_fine) 18

/-- Bosch `var1_2 = ((32768 + var1_2) * par_p1) >> 15`. -/
def boschP_w3 (c : CalibrationData) (t_fine : Int) : Int :=
  asr (i64 ((32768 + boschP_w2 c t_fine) * c.par_p1)) 15

/-- The Bosch driver's `int64_t calc_pressure` after the division-order branch. -/
def boschP_cp2 (c : CalibrationData) (t_fine pres_adc : Int) : Int :=
  pres_cp2 (pres_cp1 (pres_cp0 pres_adc) (boschP_v2c c t_fine))
    (boschP_w3 c t_fine)

/-- The Bosch driver's final `int64_t calc_pressure` (Pa, returned after a
conversion to `float` and division by `100.0`). -/
def bosch_pres_out (c : CalibrationData) (t_fine pres_adc : Int) : Int :=
  let cp2 := boschP_cp2 c t_fine pres_adc
  let q1 := i64 (pres_q1_inner c.par_p9 cp2)
  let q2 := i64 (pres_q2_inner c.par_p8 cp2)
  let q3 := pres_q3 c.par_p10 cp2
  i64 (cp2 + asr (i64 (i64 (i64 (q1 + q2) + q3) + i64 (c.par_p7 * 128))) 4)

/-! ## High-variant gas resistance
(`BME680_Custom::_calc_gas_resistance`, high branch, lines 240-248). -/

def calc_gas_resistance_high (gas_res_adc : Int) (gas_range : Nat) : Int :=
  let var1 := 262144 / 2 ^ gas_range
  let var2 := i32 (4096 + i32 (i32 (gas_res_adc - 512) * 3))
  let q := u64 (10000 * var1) / u64 var2
  u32 (u64 (q * 100))

/-- `BME680_Custom::_calc_gas_resistance`: variant dispatch; the low branch
returns `(uint32_t)calc_gas_res`. -/
def calc_gas_resistance (variant : Int) (c : CalibrationData)
    (gas_res_adc : Int) (gas_range : Nat) : Int :=
  if variant = 1 then calc_gas_resistance_high gas_res_adc gas_range
  else u32 (calc_gas_resistance_low c.range_sw_err gas_res_adc gas_range)

/-! ## Acquisition
(`BME680_Custom::get_sensor_data`, lines 126-176).  The register transport is
modelled as two functions: `trS i` is the status byte returned by the poll of
attempt `i`, and `trF i j` is byte `j` of the 17-byte field block read during
attempt `i`. -/

/-- The Custom driver state that `get_sensor_data` reads and writes. -/
structure CustomState where
  cal : CalibrationData
  variant : Int
  offset_temp_in_t_fine : Int
  t_fine : Int
  ambient_temperature : Int
  data : SensorData
deriving DecidableEq

/-- The body executed once the new-data bit is seen: extract the ADC codes
from the 17-byte block and run the compensation chain
(lines 137-172 of `BME680_Custom.cpp`). -/
def process_frame (st : CustomState) (regs : Nat → Nat) : CustomState :=
  let r := fun j => regs j % 256
  let adc_pres : Int := (r 2 * 4096 + r 3 * 16 + r 4 / 16 : Nat)
  let adc_temp : Int := (r 5 * 4096 + r 6 * 16 + r 7 / 16 : Nat)
  let adc_hum : Int := (r 8 * 256 + r 9 : Nat)
  let adc_gas_res_low : Int := (r 13 * 4 + r 14 / 64 : Nat)
  let adc_gas_res_high : Int := (r 15 * 4 + r 16 / 64 : Nat)
  let gas_range_l := r 14 &&& 15
  let gas_range_h := r 16 &&& 15
  let heat_stable :=
    if st.variant = 1 then decide (0 < r 16 &&& 16) else decide (0 < r 14 &&& 16)
  let gas_valid :=
    if st.variant = 1 then decide (0 < r 16 &&& 32) else decide (0 < r 14 &&& 32)
  let tf := calc_t_fine st.cal st.offset_temp_in_t_fine adc_temp
  let temp := calc_temperature st.cal st.offset_temp_in_t_fine adc_temp
  let gas :=
    if st.variant = 1 then
      calc_gas_resistance st.variant st.cal adc_gas_res_high gas_range_h
    else
      calc_gas_resistance st.variant st.cal adc_gas_res_low gas_range_l
  { st with
    t_fine := tf
    ambient_temperature := temp
    data := { temperature := (temp : ℚ) / 100
              pressure := (calc_pressure_custom st.cal tf adc_pres : ℚ) / 100
              humidity := (calc_humidity st.cal tf adc_hum : ℚ) / 1000
              gas_resistance := (gas : ℚ)
              heat_stable := heat_stable
              gas_valid := gas_valid } }

/-- The bounded polling loop (`for (attempt = 0; attempt < 10; attempt++)`),
with the remaining attempt budget as fuel. -/
def gsd_loop (trS : Nat → Nat) (trF : Nat → Nat → Nat) (st : CustomState) :
    Nat → Nat → Bool × CustomState
  | _, 0 => (false, st)
  | attempt, fuel + 1 =>
    if trS attempt % 256 &&& 128 = 0 then gsd_loop trS trF st (attempt + 1) fuel
    else (true, process_frame st (trF attempt))

/-- `BME680_Custom::get_sensor_data`: up to 10 polls of the status register;
on timeout it returns `false` with the state untouched. -/
def get_sensor_data (trS : Nat → Nat) (trF : Nat → Nat → Nat)
    (st : CustomState) : Bool × CustomState :=
  gsd_loop trS trF st 0 10

/-! ## No-overflow conditions for the pressure chain -/

/-- No value stored by the Custom pressure chain in an `int32_t` exceeds the
32-bit range (each conjunct names the unwrapped value of one such store or
intermediate `int` product). -/
def custom_pres_fits (c : CalibrationData) (t_fine pres_adc : Int) : Prop :=
  fits32 t_fine ∧
  fits32 (customP_sq t_fine) ∧
  fits32 (asr (customP_sq t_fine) 11 * c.par_p6) ∧
  fits32 (customP_v1 t_fine * c.par_p5) ∧
  fits32 (customP_v1 t_fine * c.par_p5 * 2) ∧
  fits32 (customP_v2a c t_fine + customP_v1 t_fine * c.par_p5 * 2) ∧
  fits32 (asr (customP_v2b c t_fine) 2 + c.par_p4 * 65536) ∧
  fits32 (asr (customP_sq t_fine) 13 * (c.par_p3 * 32)) ∧
  fits32 (c.par_p2 * customP_v1 t_fine) ∧
  fits32 (asr (asr (customP_sq t_fine) 13 * (c.par_p3 * 32)) 3 +
    asr (c.par_p2 * customP_v1 t_fine) 1) ∧
  fits32 ((32768 + customP_w2 c t_fine) * c.par_p1) ∧
  fits32 (pres_q1_inner c.par_p9 (customP_cp2 c t_fine pres_adc)) ∧
  fits32 (pres_q2_inner c.par_p8 (customP_cp2 c t_fine pres_adc)) ∧
  fits32 (pres_q1_inner c.par_p9 (customP_cp2 c t_fine pres_adc) +
    pres_q2_inner c.par_p8 (customP_cp2 c t_fine pres_adc))

instance (c : CalibrationData) (t_fine pres_adc : Int) :
    Decidable (custom_pres_fits c t_fine pres_adc) := by
  unfold custom_pres_fits; infer_instance

/-! ## Concrete data used by the witnesses and counterexamples -/

/-- An all-zero calibration set. -/
def cal_zero : CalibrationData :=
  { par_t1 := 0, par_t2 := 0, par_t3 := 0,
    par_p1 := 0, par_p2 := 0, par_p3 := 0, par_p4 := 0, par_p5 := 0,
    par_p6 := 0, par_p7 := 0, par_p8 := 0, par_p9 := 0, par_p10 := 0,
    par_h1 := 0, par_h2 := 0, par_h3 := 0, par_h4 := 0, par_h5 := 0,
    par_h6 := 0, par_h7 := 0, par_gh1 := 0, par_gh2 := 0, par_gh3 := 0,
    res_heat_range := 0, res_heat_val := 0, range_sw_err := 0 }

/-- A representative well-formed calibration set with realistic magnitudes. -/
def cal_demo : CalibrationData :=
  { par_t1 := 26000, par_t2 := 26000, par_t3 := 3,
    par_p1 := 20000, par_p2 := 0, par_p3 := 0, par_p4 := 0, par_p5 := 0,
    par_p6 := 100, par_p7 := 0, par_p8 := 0, par_p9 := 0, par_p10 := 0,
    par_h1 := 0, par_h2 := 0, par_h3 := 0, par_h4 := 0, par_h5 := 0,
    par_h6 := 0, par_h7 := 0, par_gh1 := 0, par_gh2 := 0, par_gh3 := 0,
    res_heat_range := 0, res_heat_val := 0, range_sw_err := 0 }

/-- A well-formed calibration set (maximal `par_t2`) on which the temperature
chain overflows 32 bits inside the valid ADC range. -/
def cal_t2max : CalibrationData :=
  { par_t1 := 0, par_t2 := 32767, par_t3 := 0,
    par_p1 := 0, par_p2 := 0, par_p3 := 0, par_p4 := 0, par_p5 := 0,
    par_p6 := 0, par_p7 := 0, par_p8 := 0, par_p9 := 0, par_p10 := 0,
    par_h1 := 0, par_h2 := 0, par_h3 := 0, par_h4 := 0, par_h5 := 0,
    par_h6 := 0, par_h7 := 0, par_gh1 := 0, par_gh2 := 0, par_gh3 := 0,
    res_heat_range := 0, res_heat_val := 0, range_sw_err := 0 }

/-- 51 accepted burn-in readings: one early outlier followed by 50 steady
readings. -/
def burn_samples51 : List (ℚ × ℚ) := (102, 102) :: List.replicate 50 (0, 0)

/-- An IAQ state with no established baseline. -/
def iaq_state0 : IAQState :=
  { gas_baseline := 0, hum_baseline := 0, baseline_established := false,
    data := { temperature := 0, pressure := 0, humidity := 0,
              gas_resistance := 0, heat_stable := false, gas_valid := false } }

/-- An IAQ state with an established baseline but a zero gas reading. -/
def iaq_state_gas0 : IAQState :=
  { gas_baseline := 50000, hum_baseline := 40, baseline_established := true,
    data := { temperature := 20, pressure := 1000, humidity := 35,
              gas_resistance := 0, heat_stable := true, gas_valid := true } }

/-- A concrete driver state for the acquisition witnesses. -/
def cstate0 : CustomState :=
  { cal := cal_zero, variant := 0, offset_temp_in_t_fine := 0, t_fine := 0,
    ambient_temperature := 0,
    data := { temperature := 0, pressure := 0, humidity := 0,
              gas_resistance := 0, heat_stable := false, gas_valid := false } }

/-!
# Theorems
-/

/-! ## Machine-integer lemmas -/

theorem i32_eq_of_fits {x : Int} (h : fits32 x) : i32 x = x := by
  obtain ⟨h1, h2⟩ := h
  unfold i32
  rw [Int.emod_eq_of_lt (by omega) (by omega)]
  omega

theorem i64_eq_of_fits {x : Int} (h : fits64 x) : i64 x = x := by
  obtain ⟨h1, h2⟩ := h
  unfold i64
  rw [Int.emod_eq_of_lt (by omega) (by omega)]
  omega

theorem fits64_of_fits32 {x : Int} (h : fits32 x) : fits64 x := by
  obtain ⟨h1, h2⟩ := h; exact ⟨by omega, by omega⟩

theorem i32_bounds (x : Int) : -2147483648 ≤ i32 x ∧ i32 x < 2147483648 := by
  unfold i32
  have h1 := Int.emod_nonneg (x + 2147483648) (b := 4294967296) (by omega)
  have h2 := Int.emod_lt_of_pos (x + 2147483648) (b := 4294967296) (by omega)
  omega

theorem i64_bounds (x : Int) :
    -9223372036854775808 ≤ i64 x ∧ i64 x < 9223372036854775808 := by
  unfold i64
  have h1 := Int.emod_nonneg (x + 9223372036854775808)
    (b := 18446744073709551616) (by omega)
  have h2 := Int.emod_lt_of_pos (x + 9223372036854775808)
    (b := 18446744073709551616) (by omega)
  omega

theorem u32_bounds (x : Int) : 0 ≤ u32 x ∧ u32 x < 4294967296 := by
  unfold u32
  have h1 := Int.emod_nonneg x (b := 4294967296) (by omega)
  have h2 := Int.emod_lt_of_pos x (b := 4294967296) (by omega)
  omega

theorem u32_eq_of_range {x : Int} (h1 : 0 ≤ x) (h2 : x < 4294967296) : u32 x = x := by
  unfold u32; exact Int.emod_eq_of_lt h1 h2

/-- Magnitude of a C truncated division never exceeds the dividend's. -/
theorem tdiv_natAbs_le (a b : Int) : (Int.tdiv a b).natAbs ≤ a.natAbs := by
  rw [Int.natAbs_tdiv]
  exact Nat.div_le_self _ _

theorem asr_le_asr {x y : Int} (k : Nat) (h : x ≤ y) : asr x k ≤ asr y k :=
  Int.ediv_le_ediv (by positivity) h

/-- An arithmetic shift cannot leave the signed 64-bit range. -/
theorem fits64_asr {y : Int} (h : fits64 y) (k : Nat) : fits64 (asr y k) := by
  obtain ⟨h1, h2⟩ := h
  have habs := Int.natAbs_div_le_natAbs y (2 ^ k)
  have hle : asr y k = y / 2 ^ k := rfl
  rcases le_or_lt 0 y with hy | hy
  · have hnn : 0 ≤ y / 2 ^ k := Int.ediv_nonneg hy (by positivity)
    have hself : y / 2 ^ k ≤ y := Int.ediv_le_self _ hy
    exact ⟨by unfold asr; omega, by unfold asr; omega⟩
  · have hnp : y / 2 ^ k ≤ 0 := by
      have h0 := Int.ediv_le_ediv (c := 2 ^ k) (by positivity) (le_of_lt hy)
      simpa using h0
    unfold fits64 asr
    omega

/-! ## C3: humidity output clamp -/

/-- C3: for every humidity ADC code, every calibration set and every `t_fine`
value — including values that overflow the 32-bit intermediate chain — the
per-mille humidity result of `_calc_humidity` is clamped to `[0, 100000]`
before the division by 1000, so the percent output lies in `[0, 100]`. -/
theorem C3_humidity_clamped (c : CalibrationData) (t_fine hum_adc : Int) :
    (0 ≤ calc_humidity c t_fine hum_adc ∧ calc_humidity c t_fine hum_adc ≤ 100000) ∧
    0 ≤ (calc_humidity c t_fine hum_adc : ℚ) / 1000 ∧
    (calc_humidity c t_fine hum_adc : ℚ) / 1000 ≤ 100 := by
  have h : 0 ≤ calc_humidity c t_fine hum_adc ∧
      calc_humidity c t_fine hum_adc ≤ 100000 := by
    unfold calc_humidity
    dsimp only
    split
    · omega
    · split <;> omega
  refine ⟨h, ?_, ?_⟩
  · have h0 : (0 : ℚ) ≤ (calc_humidity c t_fine hum_adc : ℚ) := by
      exact_mod_cast h.1
    positivity
  · rw [div_le_iff₀ (by norm_num)]
    have h1 : (calc_humidity c t_fine hum_adc : ℚ) ≤ 100000 := by
      exact_mod_cast h.2
    linarith

/-! ## C6: IAQ score sentinel -/

/-- C6: for every reading and humidity weight, `calculate_iaq_score` returns
the negative "unavailable" sentinel `-1` whenever no baseline is established,
and also whenever the latest gas-resistance value is exactly zero. -/
theorem C6_iaq_sentinel (st : IAQState) (w : ℚ)
    (h : st.baseline_established = false ∨ st.data.gas_resistance = 0) :
    calculate_iaq_score st w = -1 := by
  unfold calculate_iaq_score
  rcases h with h | h
  · simp [h]
  · rcases hb : st.baseline_established <;> simp [h, hb]

/-- Witness for C6: a state without a baseline and a state with a zero gas
reading both score `-1`. -/
theorem C6_iaq_sentinel_witness :
    iaq_state0.baseline_established = false ∧
    calculate_iaq_score iaq_state0 (1/4) = -1 ∧
    iaq_state_gas0.data.gas_resistance = 0 ∧
    calculate_iaq_score iaq_state_gas0 (7/10) = -1 :=
  ⟨rfl, C6_iaq_sentinel iaq_state0 (1/4) (Or.inl rfl),
   rfl, C6_iaq_sentinel iaq_state_gas0 (7/10) (Or.inr rfl)⟩

/-! ## C10: the safe-to-open check -/

/-- C10: for every threshold, `check_safe_to_open` returns `true` exactly when
a baseline is established and the IAQ score computed with the fixed default
humidity weight `0.25` is non-negative and at least the threshold; no other
weight can enter this call. -/
theorem C10_safe_to_open_iff (st : IAQState) (threshold : ℚ) :
    check_safe_to_open st threshold = true ↔
      st.baseline_established = true ∧
      0 ≤ calculate_iaq_score st (1/4) ∧
      threshold ≤ calculate_iaq_score st (1/4) := by
  unfold check_safe_to_open
  rcases hb : st.baseline_established
  · simp [hb]
  · simp only [hb, Bool.true_eq_false, if_false]
    by_cases hs : calculate_iaq_score st (1/4) < 0
    · simp only [if_pos hs]
      constructor
      · intro hfalse; exact Bool.noConfusion hfalse
      · rintro ⟨-, h0, -⟩; linarith
    · simp only [if_neg hs, decide_eq_true_eq]
      push_neg at hs
      constructor
      · intro ht; exact ⟨by simp [hb], hs, ht⟩
      · intro h; exact h.2.2

/-! ## C8: zero-sample burn-in -/

/-- Counterexample for C8: in the Bosch driver, a burn-in window that accepts
zero heat-stable samples still marks the baseline as established
(`baseline_status = 1`, against the constructor's `-1`), so the established
flag does not keep its prior value and no failure is reported. -/
theorem C8_counterexample :
    (bosch_set_baselines []).baseline_status = 1 := by rfl

/-- C8 (amended): in the Custom driver a burn-in run that accepts zero
heat-stable samples leaves the baseline state completely unchanged and
returns `false`; the Bosch driver instead marks the baseline established even
with zero accepted samples. -/
theorem C8_zero_sample_burn_in (st : CustomBaseline) :
    custom_set_baselines st [] = (st, false) := rfl

/-! ## C5: heater duration encoding -/

/-- Any fuel of at least `dur` computes the loop's true result. -/
theorem durLoopF_adequate : ∀ (dur fuel factor : Nat), dur ≤ fuel →
    durLoopF fuel dur factor = durLoop dur factor := by
  intro dur
  induction dur using Nat.strong_induction_on with
  | _ dur ih =>
    intro fuel factor h
    by_cases hgt : 63 < dur
    · have hlt : dur / 4 < dur := Nat.div_lt_self (by omega) (by omega)
      obtain ⟨g, hg⟩ : ∃ g, fuel = g + 1 := ⟨fuel - 1, by omega⟩
      obtain ⟨k, hk⟩ : ∃ k, dur = k + 1 := ⟨dur - 1, by omega⟩
      have step1 : durLoopF fuel dur factor = durLoopF g (dur / 4) (factor + 1) := by
        rw [hg]
        simp only [durLoopF]
        rw [if_pos hgt]
      have step2 : durLoop dur factor = durLoopF k (dur / 4) (factor + 1) := by
        unfold durLoop
        rw [hk]
        simp only [durLoopF]
        rw [if_pos (by omega)]
      rw [step1, step2, ih (dur / 4) hlt g (factor + 1) (by omega),
        ih (dur / 4) hlt k (factor + 1) (by omega)]
    · have step2 : durLoop dur factor = (dur, factor) := by
        unfold durLoop
        cases dur with
        | zero => rfl
        | succ k =>
          unfold durLoopF
          rw [if_neg hgt]
      cases fuel with
      | zero =>
        have : dur = 0 := by omega
        subst this
        rw [step2]
        rfl
      | succ g =>
        rw [step2]
        unfold durLoopF
        rw [if_neg hgt]

theorem durLoop_eq_of_le {dur : Nat} (factor : Nat) (h : dur ≤ 63) :
    durLoop dur factor = (dur, factor) := by
  unfold durLoop
  cases dur with
  | zero => rfl
  | succ k =>
    unfold durLoopF
    rw [if_neg (by omega)]

theorem durLoop_eq_of_gt {dur : Nat} (factor : Nat) (h : 63 < dur) :
    durLoop dur factor = durLoop (dur / 4) (factor + 1) := by
  conv_lhs => unfold durLoop
  obtain ⟨k, hk⟩ : ∃ k, dur = k + 1 := ⟨dur - 1, by omega⟩
  rw [hk]
  unfold durLoopF
  rw [if_pos (by omega)]
  exact durLoopF_adequate ((k + 1) / 4) k (factor + 1) (by omega)

/-- The starting factor only shifts the loop's factor output. -/
theorem durLoop_shift (dur : Nat) : ∀ c : Nat,
    durLoop dur c = ((durLoop dur 0).1, (durLoop dur 0).2 + c) := by
  induction dur using Nat.strong_induction_on with
  | _ dur ih =>
    intro c
    by_cases h : 63 < dur
    · have hlt : dur / 4 < dur := Nat.div_lt_self (by omega) (by omega)
      rw [durLoop_eq_of_gt c h, durLoop_eq_of_gt 0 h, ih (dur / 4) hlt (c + 1),
        ih (dur / 4) hlt 1]
      have harith : (durLoop (dur / 4) 0).2 + (c + 1) =
          (durLoop (dur / 4) 0).2 + 1 + c := by omega
      rw [harith]
    · rw [durLoop_eq_of_le c (by omega), durLoop_eq_of_le 0 (by omega)]
      simp

/-- The mantissa produced by the loop fits 6 bits. -/
theorem durLoop_mant_le (dur : Nat) : (durLoop dur 0).1 ≤ 63 := by
  induction dur using Nat.strong_induction_on with
  | _ dur ih =>
    by_cases h : 63 < dur
    · have hlt : dur / 4 < dur := Nat.div_lt_self (by omega) (by omega)
      rw [durLoop_eq_of_gt 0 h, durLoop_shift (dur / 4) 1]
      exact ih (dur / 4) hlt
    · rw [durLoop_eq_of_le 0 (by omega)]
      show dur ≤ 63
      omega

/-- `mantissa * 4 ^ factor ≤ dur < (mantissa + 1) * 4 ^ factor`. -/
theorem durLoop_sandwich (dur : Nat) :
    (durLoop dur 0).1 * 4 ^ (durLoop dur 0).2 ≤ dur ∧
    dur < ((durLoop dur 0).1 + 1) * 4 ^ (durLoop dur 0).2 := by
  induction dur using Nat.strong_induction_on with
  | _ dur ih =>
    by_cases h : 63 < dur
    · have hlt : dur / 4 < dur := Nat.div_lt_self (by omega) (by omega)
      obtain ⟨ih1, ih2⟩ := ih (dur / 4) hlt
      rw [durLoop_eq_of_gt 0 h, durLoop_shift (dur / 4) 1]
      constructor
      · calc (durLoop (dur / 4) 0).1 * 4 ^ ((durLoop (dur / 4) 0).2 + 1)
            = (durLoop (dur / 4) 0).1 * 4 ^ (durLoop (dur / 4) 0).2 * 4 := by ring
          _ ≤ dur / 4 * 4 := by omega
          _ ≤ dur := by omega
      · calc dur < dur / 4 * 4 + 4 := by omega
          _ = (dur / 4 + 1) * 4 := by ring
          _ ≤ ((durLoop (dur / 4) 0).1 + 1) * 4 ^ (durLoop (dur / 4) 0).2 * 4 := by
              have : dur / 4 + 1 ≤ ((durLoop (dur / 4) 0).1 + 1) *
                  4 ^ (durLoop (dur / 4) 0).2 := by omega
              omega
          _ = ((durLoop (dur / 4) 0).1 + 1) * 4 ^ ((durLoop (dur / 4) 0).2 + 1) := by
              ring
    · rw [durLoop_eq_of_le 0 (by omega)]
      constructor <;> simp

/-- When the loop ran at least once, the mantissa is at least 16. -/
theorem durLoop_mant_ge (dur : Nat) (h : 63 < dur) : 16 ≤ (durLoop dur 0).1 := by
  induction dur using Nat.strong_induction_on with
  | _ dur ih =>
    have hlt : dur / 4 < dur := Nat.div_lt_self (by omega) (by omega)
    rw [durLoop_eq_of_gt 0 h, durLoop_shift (dur / 4) 1]
    by_cases h4 : 63 < dur / 4
    · exact ih (dur / 4) hlt h4
    · rw [durLoop_eq_of_le 0 (by omega)]
      show 16 ≤ dur / 4
      omega

/-- No loop iteration means the factor is zero. -/
theorem durLoop_factor_zero {dur : Nat} (h : dur ≤ 63) : (durLoop dur 0).2 = 0 := by
  rw [durLoop_eq_of_le 0 h]

/-- Re-encoding an exact mantissa/factor product recovers it. -/
theorem durLoop_pow (m : Nat) (h16 : 16 ≤ m) (h63 : m ≤ 63) :
    ∀ f : Nat, durLoop (m * 4 ^ f) 0 = (m, f) := by
  intro f
  induction f with
  | zero => simpa using durLoop_eq_of_le 0 h63
  | succ f ihf =>
    have hgt : 63 < m * 4 ^ (f + 1) := by
      have h4 : 4 ≤ 4 ^ (f + 1) := by
        have := Nat.pow_le_pow_right (by omega : 1 ≤ 4) (by omega : 1 ≤ f + 1)
        simpa using this
      calc 63 < 16 * 4 := by omega
        _ ≤ m * 4 ^ (f + 1) := Nat.mul_le_mul h16 h4
    rw [durLoop_eq_of_gt 0 hgt]
    have hdiv : m * 4 ^ (f + 1) / 4 = m * 4 ^ f := by
      rw [pow_succ, ← Nat.mul_assoc]
      exact Nat.mul_div_cancel _ (by omega)
    rw [hdiv, durLoop_shift (m * 4 ^ f) 1, ihf]

/-- C5: heater-duration encoding.  For a 16-bit duration `d`:
durations at or above `0xFC0` saturate to `0xFF`; zero encodes to zero; below
`0xFC0` the result is `mantissa + factor * 64` where the mantissa is
`d / 4 ^ factor`, fits 6 bits, and the factor counts the divisions by 4
needed to get there (it is minimal); and re-encoding the decoded
mantissa/factor product reproduces the encoding. -/
theorem C5_heater_duration (d : Nat) (hd : d < 65536) :
    (0xfc0 ≤ d → calc_heater_duration d = 0xff) ∧
    calc_heater_duration 0 = 0 ∧
    (d < 0xfc0 →
      calc_heater_duration d =
        d / 4 ^ (durLoop d 0).2 + (durLoop d 0).2 * 64 ∧
      d / 4 ^ (durLoop d 0).2 ≤ 63 ∧
      ((durLoop d 0).2 = 0 ∨ 63 < d / 4 ^ ((durLoop d 0).2 - 1))) ∧
    calc_heater_duration (decode_duration (calc_heater_duration d)) =
      calc_heater_duration d := by
  have hmant := durLoop_mant_le d
  have hsand := durLoop_sandwich d
  have hqm : d / 4 ^ (durLoop d 0).2 = (durLoop d 0).1 := by
    refine Nat.div_eq_of_lt_le ?_ ?_
    · exact hsand.1
    · exact hsand.2
  refine ⟨?_, rfl, ?_, ?_⟩
  · intro hge
    unfold calc_heater_duration
    rw [if_neg (by omega)]
  · intro hlt
    refine ⟨?_, by omega, ?_⟩
    · unfold calc_heater_duration
      rw [if_pos hlt, hqm]
    · by_cases hz : (durLoop d 0).2 = 0
      · exact Or.inl hz
      · refine Or.inr ?_
        have h16 : 16 ≤ (durLoop d 0).1 := by
          by_cases hbig : 63 < d
          · exact durLoop_mant_ge d hbig
          · exact absurd (durLoop_factor_zero (by omega)) hz
        have hpow : (durLoop d 0).1 * 4 ^ (durLoop d 0).2 ≤ d := hsand.1
        have hstep : 4 ^ (durLoop d 0).2 = 4 ^ ((durLoop d 0).2 - 1) * 4 := by
          rw [← pow_succ]
          congr 1
          omega
        have h64 : 64 * 4 ^ ((durLoop d 0).2 - 1) ≤ d := by
          calc 64 * 4 ^ ((durLoop d 0).2 - 1)
              ≤ (durLoop d 0).1 * 4 * 4 ^ ((durLoop d 0).2 - 1) := by
                have : 64 ≤ (durLoop d 0).1 * 4 := by omega
                exact Nat.mul_le_mul_right _ this
            _ = (durLoop d 0).1 * 4 ^ (durLoop d 0).2 := by rw [hstep]; ring
            _ ≤ d := hpow
        have := (Nat.le_div_iff_mul_le (k := 4 ^ ((durLoop d 0).2 - 1))
          (by positivity)).2 (by omega : 64 * 4 ^ ((durLoop d 0).2 - 1) ≤ d)
        omega
  · by_cases hlt : d < 0xfc0
    · have henc : calc_heater_duration d = (durLoop d 0).1 + (durLoop d 0).2 * 64 := by
        unfold calc_heater_duration
        rw [if_pos hlt]
      have hdec : decode_duration (calc_heater_duration d) =
          (durLoop d 0).1 * 4 ^ (durLoop d 0).2 := by
        rw [henc]
        unfold decode_duration
        congr 1
        · omega
        · congr 1
          omega
      rw [hdec]
      by_cases hz : (durLoop d 0).2 = 0
      · rw [hz]
        simp only [pow_zero, Nat.mul_one]
        unfold calc_heater_duration
        rw [if_pos (by omega), if_pos hlt, durLoop_eq_of_le 0 hmant]
        simp [hz]
      · have h16 : 16 ≤ (durLoop d 0).1 := by
          by_cases hbig : 63 < d
          · exact durLoop_mant_ge d hbig
          · exact absurd (durLoop_factor_zero (by omega)) hz
        have hle : (durLoop d 0).1 * 4 ^ (durLoop d 0).2 < 0xfc0 := by omega
        unfold calc_heater_duration
        rw [if_pos hle, if_pos hlt, durLoop_pow (durLoop d 0).1 h16 hmant]
    · have henc : calc_heater_duration d = 0xff := by
        unfold calc_heater_duration
        rw [if_neg (by omega)]
      rw [henc]
      rfl

/-- Witness for C5 at `d = 150`: the encoding is `37 + 1 * 64 = 101`, the
mantissa is `150 / 4`, the factor is minimal, and re-encoding the decoded
value `148` gives `101` again. -/
theorem C5_heater_duration_witness :
    (150 : Nat) < 65536 ∧
    calc_heater_duration 150 = 150 / 4 ^ (durLoop 150 0).2 + (durLoop 150 0).2 * 64 ∧
    calc_heater_duration (decode_duration (calc_heater_duration 150)) =
      calc_heater_duration 150 ∧
    calc_heater_duration 4032 = 0xff ∧
    calc_heater_duration 0 = 0 :=
  ⟨by omega,
   ((C5_heater_duration 150 (by omega)).2.2.1 (by omega)).1,
   (C5_heater_duration 150 (by omega)).2.2.2,
   (C5_heater_duration 4032 (by omega)).1 (by omega),
   (C5_heater_duration 150 (by omega)).2.1⟩

/-! ## C1: low-variant gas resistance stays in unsigned 32-bit range -/

/-- Over the decoded calibration domain (`range_sw_err ∈ [0,15]`) and all 16
gas ranges, `var1` is never `0` nor `-32768` (checked exhaustively). -/
theorem gas_low_var1_ne : ∀ e : Nat, e < 16 → ∀ g : Nat, g < 16 →
    gas_low_var1 (e : Int) g ≠ 0 ∧ gas_low_var1 (e : Int) g ≠ -32768 := by decide

/-- `var1` always fits the 16-bit window cut out by the shift. -/
theorem gas_low_var1_bounds (err : Int) (g : Nat) :
    -32768 ≤ gas_low_var1 err g ∧ gas_low_var1 err g ≤ 32767 := by
  unfold gas_low_var1 asr
  have hb := i32_bounds ((1340 + 5 * err) * lookupTable1.getD g 0)
  omega

/-- C1: over the whole valid low-variant domain (`gas_range ∈ [0,15]`,
`raw_gas ∈ [0,1023]`, decoded `range_sw_err ∈ [0,15]`) the divisor `var2` is
never zero, and the gas-resistance value — after the negative quotient is
reinterpreted by adding `2^32` — always lies in `[0, 2^32)`, i.e. it is a
valid unsigned 32-bit value and never negative. -/
theorem C1_gas_low_unsigned32 (err gas_res_adc : Int) (g : Nat)
    (herr : 0 ≤ err ∧ err < 16) (hadc : 0 ≤ gas_res_adc ∧ gas_res_adc < 1024)
    (hg : g < 16) :
    gas_low_var2 gas_res_adc (gas_low_var1 err g) ≠ 0 ∧
    0 ≤ calc_gas_resistance_low err gas_res_adc g ∧
    calc_gas_resistance_low err gas_res_adc g < 4294967296 ∧
    u32 (calc_gas_resistance_low err gas_res_adc g) =
      calc_gas_resistance_low err gas_res_adc g := by
  have hv1b := gas_low_var1_bounds err g
  have hv1ne : gas_low_var1 err g ≠ 0 ∧ gas_low_var1 err g ≠ -32768 := by
    obtain ⟨e, he⟩ : ∃ e : Nat, err = (e : Int) :=
      ⟨err.toNat, (Int.toNat_of_nonneg herr.1).symm⟩
    subst he
    exact gas_low_var1_ne e (by exact_mod_cast herr.2) g hg
  have hv2 : gas_low_var2 gas_res_adc (gas_low_var1 err g) =
      gas_res_adc * 32768 - 16777216 + gas_low_var1 err g := by
    unfold gas_low_var2
    exact i32_eq_of_fits ⟨by nlinarith [herr.1, hadc.1], by nlinarith [hadc.2]⟩
  have hv2ne : gas_low_var2 gas_res_adc (gas_low_var1 err g) ≠ 0 := by
    rw [hv2]
    intro hzero
    omega
  refine ⟨hv2ne, ?_⟩
  unfold calc_gas_resistance_low
  dsimp only
  have hnum := i32_bounds (gas_low_var3 g (gas_low_var1 err g) +
    asr (gas_low_var2 gas_res_adc (gas_low_var1 err g)) 1)
  have hq := tdiv_natAbs_le
    (i32 (gas_low_var3 g (gas_low_var1 err g) +
      asr (gas_low_var2 gas_res_adc (gas_low_var1 err g)) 1))
    (gas_low_var2 gas_res_adc (gas_low_var1 err g))
  set q := Int.tdiv
    (i32 (gas_low_var3 g (gas_low_var1 err g) +
      asr (gas_low_var2 gas_res_adc (gas_low_var1 err g)) 1))
    (gas_low_var2 gas_res_adc (gas_low_var1 err g)) with hqdef
  have hqb : -2147483648 ≤ q ∧ q ≤ 2147483648 := by omega
  refine ⟨by split <;> omega, by split <;> omega, ?_⟩
  split
  next hneg => rw [u32_eq_of_range (by omega) (by omega)]
  next hneg => rw [u32_eq_of_range (by omega) (by omega)]

/-- Witness for C1 at `range_sw_err = 4`, `raw_gas = 600`, `gas_range = 9`. -/
theorem C1_gas_low_unsigned32_witness :
    gas_low_var2 600 (gas_low_var1 4 9) ≠ 0 ∧
    0 ≤ calc_gas_resistance_low 4 600 9 ∧
    calc_gas_resistance_low 4 600 9 < 4294967296 := by
  have h := C1_gas_low_unsigned32 4 600 9 (by omega) (by omega) (by omega)
  exact ⟨h.1, h.2.1, h.2.2.1⟩

/-! ## C2: burn-in baseline policy -/

/-- Summing a list by index equals summing the list. -/
theorem sum_range_getD (ys : List ℚ) :
    ((List.range ys.length).map fun i => ys.getD i 0).sum = ys.sum := by
  induction ys with
  | nil => rfl
  | cons y ys ih =>
    rw [List.length_cons, List.range_succ_eq_map, List.map_cons, List.map_map,
      List.sum_cons]
    have hcomp : ((fun i => (y :: ys).getD i 0) ∘ Nat.succ) =
        fun i => ys.getD i 0 := by
      funext i
      rfl
    rw [hcomp, ih]
    rfl

/-- The C index-range sum from `a` to the end of the array is the sum of the
dropped list. -/
theorem sumFromTo_eq_sum_drop (xs : List ℚ) (a : Nat) :
    sumFromTo xs a xs.length = (xs.drop a).sum := by
  unfold sumFromTo
  have hlen : xs.length - a = (xs.drop a).length := (List.length_drop a xs).symm
  have hgetD : ∀ i : Nat, xs.getD (a + i) 0 = (xs.drop a).getD i 0 := by
    intro i
    simp [List.getD, List.getElem?_drop]
  rw [hlen]
  have hmap : ((List.range (xs.drop a).length).map fun i => xs.getD (a + i) 0) =
      ((List.range (xs.drop a).length).map fun i => (xs.drop a).getD i 0) :=
    List.map_congr_left fun i _ => hgetD i
  rw [hmap, sum_range_getD]

/-- Counterexample for C2: with 51 accepted readings `102, 0, 0, …, 0` the
mean of the last 50 is `0`, but the Custom driver's baseline is the mean of
all 51 readings, `2`. -/
theorem C2_counterexample :
    50 ≤ burn_samples51.length ∧
    ((burn_samples51.drop (burn_samples51.length - 50)).map Prod.fst).sum / 50 = 0 ∧
    (custom_set_baselines ⟨0, 0, false⟩ burn_samples51).1.gas_baseline = 2 ∧
    (2 : ℚ) ≠ 0 := by
  refine ⟨by simp [burn_samples51], ?_, ?_, by norm_num⟩
  · simp [burn_samples51, List.sum_replicate]
  · unfold custom_set_baselines
    rw [if_pos (by simp [burn_samples51])]
    show ((burn_samples51.map Prod.fst).sum / (burn_samples51.length : ℚ)) = 2
    simp [burn_samples51, List.sum_replicate]
    norm_num

/-- C2 (amended): for a burn-in window with at least one and at most 300
accepted readings, the Bosch driver's stored baselines are the mean of all
accepted readings when fewer than 50 were accepted and the mean of exactly
the last 50 otherwise; the Custom driver instead always stores the mean of
all accepted readings. -/
theorem C2_baseline_policy (samples : List (ℚ × ℚ)) (st : CustomBaseline)
    (h0 : 0 < samples.length) (h300 : samples.length ≤ 300) :
    ((bosch_set_baselines samples).baseline_gas =
      if samples.length < 50 then (samples.map Prod.fst).sum / samples.length
      else ((samples.drop (samples.length - 50)).map Prod.fst).sum / 50) ∧
    ((bosch_set_baselines samples).baseline_hum =
      if samples.length < 50 then (samples.map Prod.snd).sum / samples.length
      else ((samples.drop (samples.length - 50)).map Prod.snd).sum / 50) ∧
    (custom_set_baselines st samples).1.gas_baseline =
      (samples.map Prod.fst).sum / samples.length ∧
    (custom_set_baselines st samples).1.hum_baseline =
      (samples.map Prod.snd).sum / samples.length := by
  have htake : samples.take 300 = samples := List.take_of_length_le h300
  have hdropg : ∀ n : Nat, (samples.map Prod.fst).drop n =
      (samples.drop n).map Prod.fst := by
    intro n
    rw [List.map_drop]
  have hdroph : ∀ n : Nat, (samples.map Prod.snd).drop n =
      (samples.drop n).map Prod.snd := by
    intro n
    rw [List.map_drop]
  have hzero : sumFromTo (samples.map Prod.fst) 0 (samples.map Prod.fst).length =
      (samples.map Prod.fst).sum := by
    rw [sumFromTo_eq_sum_drop]
    rfl
  have hzero2 : sumFromTo (samples.map Prod.snd) 0 (samples.map Prod.snd).length =
      (samples.map Prod.snd).sum := by
    rw [sumFromTo_eq_sum_drop]
    rfl
  refine ⟨?_, ?_, ?_, ?_⟩
  · unfold bosch_set_baselines
    rw [htake]
    simp only [List.length_map]
    by_cases h50 : samples.length < 50
    · rw [if_pos h50, if_pos h50]
      show sumFromTo (samples.map Prod.fst) 0 samples.length /
        (samples.length : ℚ) = _
      rw [show samples.length = (samples.map Prod.fst).length from
        (List.length_map _ _).symm, hzero]
    · rw [if_neg h50, if_neg h50]
      show sumFromTo (samples.map Prod.fst) (samples.length - 50)
        samples.length / 50 = _
      rw [show samples.length = (samples.map Prod.fst).length from
        (List.length_map _ _).symm, sumFromTo_eq_sum_drop, List.length_map,
        hdropg]
  · unfold bosch_set_baselines
    rw [htake]
    simp only [List.length_map]
    by_cases h50 : samples.length < 50
    · rw [if_pos h50, if_pos h50]
      show sumFromTo (samples.map Prod.snd) 0 samples.length /
        (samples.length : ℚ) = _
      rw [show samples.length = (samples.map Prod.snd).length from
        (List.length_map _ _).symm, hzero2]
    · rw [if_neg h50, if_neg h50]
      show sumFromTo (samples.map Prod.snd) (samples.length - 50)
        samples.length / 50 = _
      rw [show samples.length = (samples.map Prod.snd).length from
        (List.length_map _ _).symm, sumFromTo_eq_sum_drop, List.length_map,
        hdroph]
  · unfold custom_set_baselines
    rw [if_pos h0]
  · unfold custom_set_baselines
    rw [if_pos h0]

/-- Witness for C2 at the 51-sample sequence: the Bosch baseline is the mean
of the last 50 (`0`), the Custom baseline is the mean of all (`2`). -/
theorem C2_baseline_policy_witness :
    (bosch_set_baselines burn_samples51).baseline_gas = 0 ∧
    (custom_set_baselines ⟨0, 0, false⟩ burn_samples51).1.gas_baseline = 2 := by
  have h := C2_baseline_policy burn_samples51 ⟨0, 0, false⟩
    (by simp [burn_samples51]) (by simp [burn_samples51])
  constructor
  · rw [h.1]
    simp [burn_samples51, List.sum_replicate]
  · rw [h.2.2.1]
    simp [burn_samples51, List.sum_replicate]
    norm_num

/-! ## C7: bounded acquisition polling -/

/-- If no poll in the remaining budget sees the new-data bit, the loop fails
and leaves the state untouched. -/
theorem gsd_loop_timeout (trS : Nat → Nat) (trF : Nat → Nat → Nat)
    (st : CustomState) : ∀ (fuel a : Nat),
    (∀ i, a ≤ i → i < a + fuel → trS i % 256 &&& 128 = 0) →
    gsd_loop trS trF st a fuel = (false, st) := by
  intro fuel
  induction fuel with
  | zero => intro a _; rfl
  | succ fuel ih =>
    intro a h
    unfold gsd_loop
    rw [if_pos (h a le_rfl (by omega))]
    exact ih (a + 1) fun i h1 h2 => h i (by omega) (by omega)

/-- The loop result depends only on the transport's responses to the polls in
the remaining budget. -/
theorem gsd_loop_agree (trS trS' : Nat → Nat) (trF trF' : Nat → Nat → Nat)
    (st : CustomState) : ∀ (fuel a : Nat),
    (∀ i, a ≤ i → i < a + fuel → trS i = trS' i ∧ trF i = trF' i) →
    gsd_loop trS trF st a fuel = gsd_loop trS' trF' st a fuel := by
  intro fuel
  induction fuel with
  | zero => intro a _; rfl
  | succ fuel ih =>
    intro a h
    obtain ⟨hS, hF⟩ := h a le_rfl (by omega)
    unfold gsd_loop
    rw [hS, hF]
    by_cases hbit : trS' a % 256 &&& 128 = 0
    · rw [if_pos hbit, if_pos hbit]
      exact ih (a + 1) fun i h1 h2 => h i (by omega) (by omega)
    · rw [if_neg hbit, if_neg hbit]

/-- C7: one acquisition polls the status register at most 10 times — the
result is determined by the transport's first ten poll responses — and if
none of those ten polls observes the new-data bit, the acquisition returns
`false` and every driver field (in particular the whole compensated reading)
is left exactly as it was. -/
theorem C7_acquisition_bounded (trS trS' : Nat → Nat) (trF trF' : Nat → Nat → Nat)
    (st : CustomState) :
    ((∀ i, i < 10 → trS i % 256 &&& 128 = 0) →
      get_sensor_data trS trF st = (false, st)) ∧
    ((∀ i, i < 10 → trS i = trS' i ∧ trF i = trF' i) →
      get_sensor_data trS trF st = get_sensor_data trS' trF' st) := by
  constructor
  · intro h
    exact gsd_loop_timeout trS trF st 10 0 fun i h1 h2 => h i (by omega)
  · intro h
    exact gsd_loop_agree trS trS' trF trF' st 10 0 fun i h1 h2 => h i (by omega)

/-- Witness for C7: a transport that never raises the new-data bit makes the
acquisition fail with the state unchanged, and the result ignores everything
the transport would answer from attempt 10 onwards. -/
theorem C7_acquisition_bounded_witness :
    get_sensor_data (fun _ => 0) (fun _ _ => 0) cstate0 = (false, cstate0) ∧
    get_sensor_data (fun _ => 0) (fun _ _ => 0) cstate0 =
      get_sensor_data (fun i => if i < 10 then 0 else 128) (fun _ _ => 0) cstate0 :=
  ⟨(C7_acquisition_bounded (fun _ => 0) (fun _ => 0) (fun _ _ => 0) (fun _ _ => 0)
      cstate0).1 (fun i _ => rfl),
   (C7_acquisition_bounded (fun _ => 0) (fun i => if i < 10 then 0 else 128)
      (fun _ _ => 0) (fun _ _ => 0) cstate0).2
     (fun i hi => ⟨by simp [hi], rfl⟩)⟩

/-! ## C4: temperature monotonicity -/

/-- Counterexample for C4: with the well-formed calibration set
`par_t1 = 0, par_t2 = 32767, par_t3 = 0` and zero offset, the product
`var1 * par_t2` overflows 32 bits between the in-range ADC codes `524288`
and `524312`, so the computed temperature drops from `20479` to `-20480`:
the compensation is not monotone over the full 20-bit range for every
calibration set. -/
theorem C4_counterexample :
    calib_wf cal_t2max ∧
    (0 : Int) ≤ 524288 ∧ (524288 : Int) ≤ 524312 ∧ (524312 : Int) < 1048576 ∧
    calc_temperature cal_t2max 0 524288 = 20479 ∧
    calc_temperature cal_t2max 0 524312 = -20480 ∧
    ¬calc_temperature cal_t2max 0 524288 ≤ calc_temperature cal_t2max 0 524312 := by
  refine ⟨by decide, by decide, by decide, by decide, by decide, by decide, by decide⟩

theorem asr_nonneg {x : Int} (h : 0 ≤ x) (k : Nat) : 0 ≤ asr x k :=
  Int.ediv_nonneg h (by positivity)

/-- C4 (amended): the temperature compensation is monotonically non-decreasing
in the raw ADC code over the 20-bit range provided `par_t2` and `par_t3` are
non-negative, `var1` is non-negative at the lower code, and none of the
32-bit intermediates overflows (each hypothesis below names one such
intermediate at the endpoint where it is extremal). -/
theorem C4_temperature_monotone (c : CalibrationData) (off adc1 adc2 : Int)
    (hw : calib_wf c)
    (h1 : 0 ≤ adc1) (h12 : adc1 ≤ adc2) (h2 : adc2 < 1048576)
    (ht2 : 0 ≤ c.par_t2) (ht3 : 0 ≤ c.par_t3)
    (hv1 : 0 ≤ temp_var1 c adc1)
    (hprod : temp_var1 c adc2 * c.par_t2 < 2147483648)
    (hsq : asr (temp_var1 c adc2) 1 * asr (temp_var1 c adc2) 1 < 2147483648)
    (hlo : -2147483648 ≤ temp_var2 c adc1 + temp_var3 c adc1 + off)
    (hhi : temp_var2 c adc2 + temp_var3 c adc2 + off < 2147483648)
    (hflo : -2147483648 ≤ calc_t_fine c off adc1 * 5)
    (hfhi : calc_t_fine c off adc2 * 5 + 128 < 2147483648) :
    calc_temperature c off adc1 ≤ calc_temperature c off adc2 := by
  obtain ⟨ht1b, ht2b, ht3b, -⟩ := hw
  -- var1 unwraps and is monotone
  have hit1 : i32 (c.par_t1 * 2) = c.par_t1 * 2 :=
    i32_eq_of_fits ⟨by omega, by omega⟩
  have hv1_eq : ∀ adc : Int, 0 ≤ adc → adc < 1048576 →
      temp_var1 c adc = adc / 8 - c.par_t1 * 2 := by
    intro adc ha hb
    unfold temp_var1
    rw [hit1]
    exact i32_eq_of_fits ⟨by omega, by omega⟩
  have hv1e1 := hv1_eq adc1 h1 (by omega)
  have hv1e2 := hv1_eq adc2 (by omega) h2
  have hmono1 : temp_var1 c adc1 ≤ temp_var1 c adc2 := by
    rw [hv1e1, hv1e2]
    have := Int.ediv_le_ediv (by norm_num : (0 : Int) < 8) h12
    omega
  have hv1ub : temp_var1 c adc2 ≤ 131071 := by rw [hv1e2]; omega
  have hv1nn2 : 0 ≤ temp_var1 c adc2 := le_trans hv1 hmono1
  -- var2 unwraps and is monotone
  have hp1nn : 0 ≤ temp_var1 c adc1 * c.par_t2 := mul_nonneg hv1 ht2
  have hpmono : temp_var1 c adc1 * c.par_t2 ≤ temp_var1 c adc2 * c.par_t2 :=
    mul_le_mul_of_nonneg_right hmono1 ht2
  have hip1 : i32 (temp_var1 c adc1 * c.par_t2) = temp_var1 c adc1 * c.par_t2 :=
    i32_eq_of_fits ⟨by omega, by omega⟩
  have hip2 : i32 (temp_var1 c adc2 * c.par_t2) = temp_var1 c adc2 * c.par_t2 :=
    i32_eq_of_fits ⟨by omega, by omega⟩
  have hv2mono : temp_var2 c adc1 ≤ temp_var2 c adc2 := by
    unfold temp_var2
    rw [hip1, hip2]
    exact asr_le_asr 11 hpmono
  have hv2nn : 0 ≤ temp_var2 c adc1 := by
    unfold temp_var2
    rw [hip1]
    exact asr_nonneg hp1nn 11
  have hv2ub : temp_var2 c adc2 ≤ 1048575 := by
    unfold temp_var2
    rw [hip2]
    exact le_trans (asr_le_asr 11 (by omega : temp_var1 c adc2 * c.par_t2 ≤
      2147483647)) (by decide)
  -- var3 unwraps and is monotone
  have hsmono : asr (temp_var1 c adc1) 1 ≤ asr (temp_var1 c adc2) 1 :=
    asr_le_asr 1 hmono1
  have hsnn1 : 0 ≤ asr (temp_var1 c adc1) 1 := asr_nonneg hv1 1
  have hsnn2 : 0 ≤ asr (temp_var1 c adc2) 1 := asr_nonneg hv1nn2 1
  have hsqmono : asr (temp_var1 c adc1) 1 * asr (temp_var1 c adc1) 1 ≤
      asr (temp_var1 c adc2) 1 * asr (temp_var1 c adc2) 1 :=
    mul_le_mul hsmono hsmono hsnn1 hsnn2
  have hsq1nn : 0 ≤ asr (temp_var1 c adc1) 1 * asr (temp_var1 c adc1) 1 :=
    mul_nonneg hsnn1 hsnn1
  have hisq1 : i32 (asr (temp_var1 c adc1) 1 * asr (temp_var1 c adc1) 1) =
      asr (temp_var1 c adc1) 1 * asr (temp_var1 c adc1) 1 :=
    i32_eq_of_fits ⟨by omega, by omega⟩
  have hisq2 : i32 (asr (temp_var1 c adc2) 1 * asr (temp_var1 c adc2) 1) =
      asr (temp_var1 c adc2) 1 * asr (temp_var1 c adc2) 1 :=
    i32_eq_of_fits ⟨by omega, by omega⟩
  have hit3 : i32 (c.par_t3 * 16) = c.par_t3 * 16 :=
    i32_eq_of_fits ⟨by omega, by omega⟩
  have hqmono : asr (i32 (asr (temp_var1 c adc1) 1 * asr (temp_var1 c adc1) 1)) 12 ≤
      asr (i32 (asr (temp_var1 c adc2) 1 * asr (temp_var1 c adc2) 1)) 12 := by
    rw [hisq1, hisq2]
    exact asr_le_asr 12 hsqmono
  have hqnn : 0 ≤ asr (i32 (asr (temp_var1 c adc1) 1 * asr (temp_var1 c adc1) 1)) 12 := by
    rw [hisq1]
    exact asr_nonneg hsq1nn 12
  have hqub : asr (i32 (asr (temp_var1 c adc2) 1 * asr (temp_var1 c adc2) 1)) 12 ≤
      524287 := by
    rw [hisq2]
    exact le_trans (asr_le_asr 12 (by omega : asr (temp_var1 c adc2) 1 *
      asr (temp_var1 c adc2) 1 ≤ 2147483647)) (by decide)
  have ht3nn : 0 ≤ c.par_t3 * 16 := by omega
  have hprmono : asr (i32 (asr (temp_var1 c adc1) 1 * asr (temp_var1 c adc1) 1)) 12 *
        (c.par_t3 * 16) ≤
      asr (i32 (asr (temp_var1 c adc2) 1 * asr (temp_var1 c adc2) 1)) 12 *
        (c.par_t3 * 16) :=
    mul_le_mul_of_nonneg_right hqmono ht3nn
  have hprnn : 0 ≤ asr (i32 (asr (temp_var1 c adc1) 1 * asr (temp_var1 c adc1) 1)) 12 *
      (c.par_t3 * 16) :=
    mul_nonneg hqnn ht3nn
  have hprub : asr (i32 (asr (temp_var1 c adc2) 1 * asr (temp_var1 c adc2) 1)) 12 *
      (c.par_t3 * 16) ≤ 524287 * 2032 := by
    refine mul_le_mul hqub (by omega) ht3nn (by norm_num)
  have hipr1 : i32 (asr (i32 (asr (temp_var1 c adc1) 1 * asr (temp_var1 c adc1) 1)) 12 *
        i32 (c.par_t3 * 16)) =
      asr (i32 (asr (temp_var1 c adc1) 1 * asr (temp_var1 c adc1) 1)) 12 *
        (c.par_t3 * 16) := by
    rw [hit3]
    exact i32_eq_of_fits ⟨by omega, by omega⟩
  have hipr2 : i32 (asr (i32 (asr (temp_var1 c adc2) 1 * asr (temp_var1 c adc2) 1)) 12 *
        i32 (c.par_t3 * 16)) =
      asr (i32 (asr (temp_var1 c adc2) 1 * asr (temp_var1 c adc2) 1)) 12 *
        (c.par_t3 * 16) := by
    rw [hit3]
    exact i32_eq_of_fits ⟨by omega, by omega⟩
  have hv3mono : temp_var3 c adc1 ≤ temp_var3 c adc2 := by
    unfold temp_var3
    rw [hipr1, hipr2]
    exact asr_le_asr 14 hprmono
  have hv3nn : 0 ≤ temp_var3 c adc1 := by
    unfold temp_var3
    rw [hipr1]
    exact asr_nonneg hprnn 14
  have hv3ub : temp_var3 c adc2 ≤ 65023 := by
    unfold temp_var3
    rw [hipr2]
    exact le_trans (asr_le_asr 14 hprub) (by decide)
  -- t_fine unwraps and is monotone
  have hsum1 : i32 (temp_var2 c adc1 + temp_var3 c adc1) =
      temp_var2 c adc1 + temp_var3 c adc1 := by
    refine i32_eq_of_fits ⟨by omega, by omega⟩
  have hsum2 : i32 (temp_var2 c adc2 + temp_var3 c adc2) =
      temp_var2 c adc2 + temp_var3 c adc2 := by
    have hv2nn2 : 0 ≤ temp_var2 c adc2 := le_trans hv2nn hv2mono
    have hv3nn2 : 0 ≤ temp_var3 c adc2 := le_trans hv3nn hv3mono
    refine i32_eq_of_fits ⟨by omega, by omega⟩
  have htf1 : calc_t_fine c off adc1 = temp_var2 c adc1 + temp_var3 c adc1 + off := by
    unfold calc_t_fine
    rw [hsum1]
    exact i32_eq_of_fits ⟨by omega, by omega⟩
  have htf2 : calc_t_fine c off adc2 = temp_var2 c adc2 + temp_var3 c adc2 + off := by
    unfold calc_t_fine
    rw [hsum2]
    exact i32_eq_of_fits ⟨by omega, by omega⟩
  have htfmono : calc_t_fine c off adc1 ≤ calc_t_fine c off adc2 := by
    rw [htf1, htf2]
    omega
  -- final shift
  have hf5mono : calc_t_fine c off adc1 * 5 ≤ calc_t_fine c off adc2 * 5 := by
    omega
  have hif1 : i32 (calc_t_fine c off adc1 * 5) = calc_t_fine c off adc1 * 5 :=
    i32_eq_of_fits ⟨by omega, by omega⟩
  have hif2 : i32 (calc_t_fine c off adc2 * 5) = calc_t_fine c off adc2 * 5 :=
    i32_eq_of_fits ⟨by omega, by omega⟩
  unfold calc_temperature
  rw [hif1, hif2,
    i32_eq_of_fits (x := calc_t_fine c off adc1 * 5 + 128) ⟨by omega, by omega⟩,
    i32_eq_of_fits (x := calc_t_fine c off adc2 * 5 + 128) ⟨by omega, by omega⟩]
  exact asr_le_asr 8 (by omega)

/-- Witness for C4 at the representative calibration set, zero offset and the
ADC codes `460000 ≤ 500000`. -/
theorem C4_temperature_monotone_witness :
    calc_temperature cal_demo 0 460000 ≤ calc_temperature cal_demo 0 500000 :=
  C4_temperature_monotone cal_demo 0 460000 500000 (by decide) (by decide)
    (by decide) (by decide) (by decide) (by decide) (by decide) (by decide)
    (by decide) (by decide) (by decide) (by decide) (by decide)

/-! ## C9: pressure equivalence of the two drivers -/

/-- Counterexample for C9: at the 32-bit `t_fine` value `2^30` (with a
well-formed calibration set and an in-range ADC code) the Custom driver's
`int32_t` intermediates wrap while the Bosch driver's `int64_t` chain does
not, and the two drivers disagree on the Pa value. -/
theorem C9_counterexample :
    calib_wf cal_demo ∧
    fits32 1073741824 ∧ (0 : Int) ≤ 400000 ∧ (400000 : Int) < 1048576 ∧
    bosch_pres_out cal_demo 1073741824 400000 = -4193101379 ∧
    custom_pres_out cal_demo 1073741824 400000 = 202620 ∧
    bosch_pres_out cal_demo 1073741824 400000 ≠
      custom_pres_out cal_demo 1073741824 400000 ∧
    bosch_pres_out cal_demo 1073741824 400000 ≠
      calc_pressure_custom cal_demo 1073741824 400000 := by
  refine ⟨by decide, by decide, by decide, by decide, by decide, by decide,
    by decide, by decide⟩

/-- C9 (amended): whenever none of the values the Custom driver stores in
`int32_t` overflows 32 bits, the two drivers' pressure chains agree exactly —
including the division-order branch at `2^31` — and, when the common Pa value
additionally fits an unsigned 32-bit integer, the Custom driver's returned
`uint32_t` value equals the Bosch driver's `int64_t` Pa value. -/
theorem C9_pressure_equiv (c : CalibrationData) (t_fine pres_adc : Int)
    (hw : calib_wf c) (hfit : custom_pres_fits c t_fine pres_adc) :
    bosch_pres_out c t_fine pres_adc = custom_pres_out c t_fine pres_adc ∧
    (0 ≤ custom_pres_out c t_fine pres_adc →
      custom_pres_out c t_fine pres_adc < 4294967296 →
      calc_pressure_custom c t_fine pres_adc = bosch_pres_out c t_fine pres_adc) := by
  obtain ⟨ftf, fsq, f3, f4, f5, f6, f7, f8, f9, f10, f11, f12, f13, f14⟩ := hfit
  obtain ⟨-, -, -, hp1b, hp2b, hp3b, hp4b, hp5b, hp6b, hp7b, hp8b, hp9b, hp10b, -⟩ := hw
  obtain ⟨ftf1, ftf2⟩ := ftf
  -- var1
  have hv1c : customP_v1 t_fine = asr t_fine 1 - 64000 := by
    unfold customP_v1
    refine i32_eq_of_fits ⟨?_, ?_⟩ <;> unfold asr <;> omega
  have hv1b : boschP_v1 t_fine = asr t_fine 1 - 64000 := by
    unfold boschP_v1
    refine i64_eq_of_fits ⟨?_, ?_⟩ <;> unfold asr <;> omega
  have hv1 : boschP_v1 t_fine = customP_v1 t_fine := by rw [hv1b, hv1c]
  -- squared term
  have hsqeq : boschP_sq t_fine = customP_sq t_fine := by
    unfold boschP_sq customP_sq
    rw [hv1]
  have hsq32 : i32 (customP_sq t_fine) = customP_sq t_fine := i32_eq_of_fits fsq
  have hsq64 : i64 (boschP_sq t_fine) = customP_sq t_fine := by
    rw [hsqeq]
    exact i64_eq_of_fits (fits64_of_fits32 fsq)
  -- var2 chain
  have hv2a : boschP_v2a c t_fine = customP_v2a c t_fine := by
    unfold boschP_v2a customP_v2a
    rw [hsq64, hsq32, i32_eq_of_fits f3, i64_eq_of_fits (fits64_of_fits32 f3)]
  have hp5c : i32 (customP_v1 t_fine * c.par_p5) = customP_v1 t_fine * c.par_p5 :=
    i32_eq_of_fits f4
  have hp5b2 : i64 (boschP_v1 t_fine * c.par_p5) = customP_v1 t_fine * c.par_p5 := by
    rw [hv1]
    exact i64_eq_of_fits (fits64_of_fits32 f4)
  have hv2b : boschP_v2b c t_fine = customP_v2b c t_fine := by
    unfold boschP_v2b customP_v2b
    rw [hv2a, hp5c, hp5b2, i32_eq_of_fits f5, i64_eq_of_fits (fits64_of_fits32 f5),
      i32_eq_of_fits f6, i64_eq_of_fits (fits64_of_fits32 f6)]
  have hp4f : fits32 (c.par_p4 * 65536) := ⟨by omega, by omega⟩
  have hv2c : boschP_v2c c t_fine = customP_v2c c t_fine := by
    unfold boschP_v2c customP_v2c
    rw [hv2b, i32_eq_of_fits hp4f, i64_eq_of_fits (fits64_of_fits32 hp4f),
      i32_eq_of_fits f7, i64_eq_of_fits (fits64_of_fits32 f7)]
  -- var1_2 chain
  have hp3f : fits32 (c.par_p3 * 32) := ⟨by omega, by omega⟩
  have hcomm : boschP_v1 t_fine * c.par_p2 = c.par_p2 * customP_v1 t_fine := by
    rw [hv1]
    ring
  have hw1 : boschP_w1 c t_fine = customP_w1 c t_fine := by
    unfold boschP_w1 customP_w1
    rw [hsq64, hsq32, i32_eq_of_fits hp3f, i64_eq_of_fits (fits64_of_fits32 hp3f),
      i32_eq_of_fits f8, i64_eq_of_fits (fits64_of_fits32 f8), hcomm,
      i32_eq_of_fits f9, i64_eq_of_fits (fits64_of_fits32 f9),
      i32_eq_of_fits f10, i64_eq_of_fits (fits64_of_fits32 f10)]
  have hw2 : boschP_w2 c t_fine = customP_w2 c t_fine := by
    unfold boschP_w2 customP_w2
    rw [hw1]
  have hw3 : boschP_w3 c t_fine = customP_w3 c t_fine := by
    unfold boschP_w3 customP_w3
    rw [hw2, i32_eq_of_fits f11, i64_eq_of_fits (fits64_of_fits32 f11)]
  -- the shared second half
  have hcp2 : boschP_cp2 c t_fine pres_adc = customP_cp2 c t_fine pres_adc := by
    unfold boschP_cp2 customP_cp2
    rw [hv2c, hw3]
  have hq1fits : fits64 (pres_q1_inner c.par_p9 (customP_cp2 c t_fine pres_adc)) := by
    unfold pres_q1_inner
    exact fits64_asr (i64_bounds _) 12
  have hq2fits : fits64 (pres_q2_inner c.par_p8 (customP_cp2 c t_fine pres_adc)) := by
    unfold pres_q2_inner
    exact fits64_asr (i64_bounds _) 13
  have hp7f : fits32 (c.par_p7 * 128) := ⟨by omega, by omega⟩
  have hmain : bosch_pres_out c t_fine pres_adc = custom_pres_out c t_fine pres_adc := by
    unfold bosch_pres_out custom_pres_out
    dsimp only
    rw [hcp2, i64_eq_of_fits hq1fits, i64_eq_of_fits hq2fits,
      i32_eq_of_fits f12, i32_eq_of_fits f13,
      i32_eq_of_fits f14, i64_eq_of_fits (fits64_of_fits32 f14),
      i32_eq_of_fits hp7f, i64_eq_of_fits (fits64_of_fits32 hp7f)]
  refine ⟨hmain, fun hge hlt => ?_⟩
  unfold calc_pressure_custom
  rw [u32_eq_of_range hge hlt, hmain]

/-- Witness for C9 at the representative calibration set, `t_fine = 128000`
and `pres_adc = 400000`: no intermediate overflows and both drivers compute
the identical Pa value. -/
theorem C9_pressure_equiv_witness :
    custom_pres_fits cal_demo 128000 400000 ∧
    bosch_pres_out cal_demo 128000 400000 = custom_pres_out cal_demo 128000 400000 ∧
    calc_pressure_custom cal_demo 128000 400000 = bosch_pres_out cal_demo 128000 400000 :=
  ⟨by decide,
   (C9_pressure_equiv cal_demo 128000 400000 (by decide) (by decide)).1,
   (C9_pressure_equiv cal_demo 128000 400000 (by decide) (by decide)).2
     (by decide) (by decide)⟩

end BME680
